import Mathlib

/-!
Shallow embedding of the string-analytics filtering engine
(`utils.py`, `schema.py`, `api.py`) and proofs about its
query-interpretation and filter-evaluation behaviour.

Strings coming from HTTP are modelled as Lean `String`s; Python's
`str.lower` / `str.strip` are modelled character-wise over `List Char`
(`Char.toLower`, `Char.isWhitespace`), which agrees with CPython on the
ASCII inputs the engine's recognition rules operate on.  Python `int`s
are modelled as `Int`.  The SHA-256 hash and the stored `created_at`
timestamp are store bookkeeping outside the filtering engine and are not
modelled; no filtering code path reads them.
-/

deriving instance DecidableEq for Except

namespace StrEngine

/-! ## utils.py -/

/-- Python `str.strip()` on a character list: drop whitespace from both ends. -/
def stripChars (cs : List Char) : List Char :=
  ((cs.dropWhile Char.isWhitespace).reverse.dropWhile Char.isWhitespace).reverse

/-- Python `str.lower()` on a string, as a character list (ASCII-faithful). -/
def pyLower (s : String) : List Char := s.toList.map Char.toLower

/-- `utils.length`: `len(value)`. -/
def length (value : String) : Nat := value.length

/-- `utils.is_palindrome`: normalize by strip + casefold, compare with reverse. -/
def is_palindrome (value : String) : Bool :=
  let normalized := (stripChars value.toList).map Char.toLower
  normalized == normalized.reverse

/-- `utils.unique_characters`: `len(set(value))`. -/
def unique_characters (value : String) : Nat :=
  value.toList.eraseDups.length

/-- Count maximal non-whitespace runs; the flag records whether the previous
character was part of a word. -/
def countWords : List Char → Bool → Nat
  | [], _ => 0
  | c :: rest, inWord =>
    if c.isWhitespace then countWords rest false
    else (if inWord then 0 else 1) + countWords rest true

/-- `utils.word_count`: `len(value.split())` — whitespace runs separate words,
leading/trailing whitespace yields no empty words. -/
def word_count (value : String) : Nat :=
  countWords value.toList false

/-- `utils.character_frequency_map`: `dict(Counter(value))`, as an association
list in first-occurrence order. -/
def character_frequency_map (value : String) : List (Char × Nat) :=
  value.toList.eraseDups.map (fun c => (c, value.toList.count c))

/-! ## schema.py data model (fields the engine reads) -/

/-- `schema.StringProperties` (the SHA-256 hash field is not modelled). -/
structure StringProperties where
  length : Nat
  is_palindrome : Bool
  unique_characters : Nat
  word_count : Nat
  character_frequency_map : List (Char × Nat)
deriving DecidableEq, Repr

/-- `schema.StringResource` (the `id` hash and `created_at` timestamp are
store bookkeeping, unread by filtering, and not modelled). -/
structure StringResource where
  value : String
  properties : StringProperties
deriving DecidableEq, Repr

/-- `api._build_properties`. -/
def _build_properties (value : String) : StringProperties :=
  ⟨length value, is_palindrome value, unique_characters value,
   word_count value, character_frequency_map value⟩

/-- `api._build_resource` (hash/timestamp bookkeeping omitted). -/
def _build_resource (value : String) : StringResource :=
  ⟨value, _build_properties value⟩

/-- `schema.AppliedFilters`: five independently optional predicate fields.
The only pydantic field constraint declared in `schema.py` is
`contains_character` having `min_length=1, max_length=1`; that check is
modelled in `ccLenOk` below.  No non-negativity constraint is declared on
the length fields. -/
structure AppliedFilters where
  is_palindrome : Option Bool := none
  min_length : Option Int := none
  max_length : Option Int := none
  word_count : Option Int := none
  contains_character : Option String := none
deriving DecidableEq, Repr

/-- The raw predicate map (`inferred` dict) produced by rule extraction,
before pydantic assembly. Field order mirrors first assignment order. -/
structure RawFilters where
  is_palindrome : Option Bool := none
  word_count : Option Int := none
  min_length : Option Int := none
  max_length : Option Int := none
  contains_character : Option String := none
deriving DecidableEq, Repr

/-- `if not inferred:` — the raw map is empty iff no field was ever set. -/
def RawFilters.isEmptyMap (r : RawFilters) : Bool :=
  r.is_palindrome.isNone && r.word_count.isNone && r.min_length.isNone &&
    r.max_length.isNone && r.contains_character.isNone

/-- An `HTTPException`: status code plus detail string. -/
structure HttpError where
  status : Nat
  detail : String
deriving DecidableEq, Repr

def parseFailure : HttpError :=
  ⟨400, "Unable to parse natural language query"⟩

def conflictFailure : HttpError :=
  ⟨422, "Query parsed but resulted in conflicting filters"⟩

def invalidParams : HttpError :=
  ⟨400, "Invalid query parameter values or types"⟩

/-- FastAPI's rejection of a request violating the `Query(...)` constraints
declared in the `list_strings` signature; produced by the framework before
the handler body runs. -/
def requestValidationFailure : HttpError :=
  ⟨422, "request validation error"⟩

/-! ## Regex machinery

Each Python `re.search` call is modelled by a leftmost scan (`searchAux`)
with an at-position matcher for the pattern.  All the patterns involved
have the shape literal-alternation, `\s+`, `(\d+)` or `([a-z])`, `\s+`,
literal — classes on each side of a greedy repetition are disjoint, so
the greedy match is deterministic and the model below is exact. -/

/-- Consume an exact literal at the front. -/
def dropLit : List Char → List Char → Option (List Char)
  | [], cs => some cs
  | _, [] => none
  | l :: ls, c :: cs => if l == c then dropLit ls cs else none

/-- `\s+`: require at least one whitespace char, consume the maximal run. -/
def dropWs1 (cs : List Char) : Option (List Char) :=
  match cs with
  | [] => none
  | c :: rest =>
      if c.isWhitespace then some (rest.dropWhile Char.isWhitespace) else none

def digitVal (c : Char) : Nat := c.toNat - 48

/-- `(\d+)`: require at least one digit, consume the maximal run, return its value. -/
def takeDigits1 (cs : List Char) : Option (Nat × List Char) :=
  match cs with
  | [] => none
  | c :: _ =>
      if c.isDigit then
        some ((cs.takeWhile Char.isDigit).foldl (fun acc d => 10 * acc + digitVal d) 0,
              cs.dropWhile Char.isDigit)
      else none

/-- At-position matcher for `pre + "\s+(\d+)\s+character"`. -/
def numPatAt (pre : String) (cs : List Char) : Option Nat := do
  let cs ← dropLit pre.toList cs
  let cs ← dropWs1 cs
  let (n, cs) ← takeDigits1 cs
  let cs ← dropWs1 cs
  let _ ← dropLit "character".toList cs
  pure n

/-- At-position matcher for `(?:at most|no more than)\s+(\d+)\s+character`
(alternatives tried in the regex's order). -/
def atMostAt (cs : List Char) : Option Nat :=
  match numPatAt "at most" cs with
  | some n => some n
  | none => numPatAt "no more than" cs

def isLowerAZ (c : Char) : Bool := 'a' ≤ c && c ≤ 'z'

/-- `\s+([a-z])` after a matched literal. -/
def wsLetterTail (cs : List Char) : Option Char := do
  let cs ← dropWs1 cs
  match cs with
  | c :: _ => if isLowerAZ c then some c else none
  | [] => none

/-- At-position matcher for `(?:letter|character)\s+([a-z])`. -/
def letterAt (cs : List Char) : Option Char :=
  match dropLit "letter".toList cs with
  | some rest => wsLetterTail rest
  | none =>
    match dropLit "character".toList cs with
    | some rest => wsLetterTail rest
    | none => none

/-- At-position matcher for `contain(?:ing)? the letter\s+([a-z])`
(the greedy optional `ing` is tried first, as in the regex engine). -/
def containLetterAt (cs : List Char) : Option Char :=
  match dropLit "containing the letter".toList cs with
  | some rest => wsLetterTail rest
  | none =>
    match dropLit "contain the letter".toList cs with
    | some rest => wsLetterTail rest
    | none => none

/-- `re.search`: try the at-position matcher at each position left to right. -/
def searchAux {α : Type} (m : List Char → Option α) : List Char → Option α
  | [] => m []
  | cs@(_ :: rest) =>
    match m cs with
    | some a => some a
    | none => searchAux m rest

/-- Python substring membership `needle in haystack`. -/
def isPrefixChars : List Char → List Char → Bool
  | [], _ => true
  | _ :: _, [] => false
  | p :: ps, c :: cs => p == c && isPrefixChars ps cs

def containsSub (haystack needle : List Char) : Bool :=
  match haystack with
  | [] => isPrefixChars needle []
  | _ :: rest => isPrefixChars needle haystack || containsSub rest needle

/-! ## The nine recognition rules of `_parse_natural_language_query`,
applied in source order over the normalized text. -/

def applyRule1 (cs : List Char) (f : RawFilters) : RawFilters :=
  if containsSub cs "palindrom".toList then {f with is_palindrome := some true} else f

def applyRule2 (cs : List Char) (f : RawFilters) : RawFilters :=
  if containsSub cs "single word".toList || containsSub cs "one word".toList then
    {f with word_count := some 1}
  else f

def applyRule3 (cs : List Char) (f : RawFilters) : RawFilters :=
  match searchAux (numPatAt "longer than") cs with
  | some n => {f with min_length := some ((n : Int) + 1)}
  | none => f

def applyRule4 (cs : List Char) (f : RawFilters) : RawFilters :=
  match searchAux (numPatAt "at least") cs with
  | some n => {f with min_length := some (max (n : Int) (f.min_length.getD 0))}
  | none => f

def applyRule5 (cs : List Char) (f : RawFilters) : RawFilters :=
  match searchAux (numPatAt "shorter than") cs with
  | some n => {f with max_length := some ((n : Int) - 1)}
  | none => f

def applyRule6 (cs : List Char) (f : RawFilters) : RawFilters :=
  match searchAux atMostAt cs with
  | some n => {f with max_length := some (min (n : Int) (f.max_length.getD (n : Int)))}
  | none => f

def applyRule7 (cs : List Char) (f : RawFilters) : RawFilters :=
  match searchAux letterAt cs with
  | some c => {f with contains_character := some (String.mk [c])}
  | none => f

def applyRule8 (cs : List Char) (f : RawFilters) : RawFilters :=
  if containsSub cs "first vowel".toList then {f with contains_character := some "a"} else f

def applyRule9 (cs : List Char) (f : RawFilters) : RawFilters :=
  match searchAux containLetterAt cs with
  | some c => {f with contains_character := some (String.mk [c])}
  | none => f

/-- Run the nine recognition rules in source order over normalized text. -/
def extractRaw (cs : List Char) : RawFilters :=
  applyRule9 cs (applyRule8 cs (applyRule7 cs (applyRule6 cs (applyRule5 cs
    (applyRule4 cs (applyRule3 cs (applyRule2 cs (applyRule1 cs {}))))))))

/-- `query.strip().lower()` as a character list. -/
def normChars (query : String) : List Char :=
  (stripChars query.toList).map Char.toLower

/-- The extraction stage of `_parse_natural_language_query`: normalize,
raise 400 on empty input, run the rules, raise 400 when no rule fired. -/
def parseQuery (query : String) : Except HttpError RawFilters :=
  if (normChars query).isEmpty then .error parseFailure
  else if (extractRaw (normChars query)).isEmptyMap then .error parseFailure
  else .ok (extractRaw (normChars query))

/-- The pydantic field constraint on `contains_character`
(`min_length=1, max_length=1` in `schema.AppliedFilters`). -/
def ccLenOk (o : Option String) : Bool :=
  match o with
  | some s => 1 ≤ s.length && s.length ≤ 1
  | none => true

/-- `AppliedFilters(**inferred)` with the surrounding try/except: the only
declared field constraint is on `contains_character`; a `ValidationError`
is re-raised as the 422 conflict response. -/
def assembleFilters (raw : RawFilters) : Except HttpError AppliedFilters :=
  if ccLenOk raw.contains_character then
    .ok ⟨raw.is_palindrome, raw.min_length, raw.max_length,
         raw.word_count, raw.contains_character⟩
  else .error conflictFailure

/-- The final statement of `_parse_natural_language_query`: raise the 422
conflict when both bounds are present and `min_length > max_length`,
otherwise return the filters. -/
def conflictCheck (filters : AppliedFilters) : Except HttpError AppliedFilters :=
  match filters.min_length, filters.max_length with
  | some mn, some mx =>
      if mn > mx then .error conflictFailure else .ok filters
  | some _, none => .ok filters
  | none, _ => .ok filters

/-- `api._parse_natural_language_query`: extraction, pydantic assembly,
then the `min_length > max_length` conflict check. -/
def _parse_natural_language_query (query : String) : Except HttpError AppliedFilters :=
  match parseQuery query with
  | .error e => .error e
  | .ok raw =>
    match assembleFilters raw with
    | .error e => .error e
    | .ok filters => conflictCheck filters

/-! ## Filter evaluation (`api._apply_filters`) -/

/-- One loop iteration's `continue` conditions, in source order (a record is
skipped iff one of the five guards fires). -/
def skipRecord (filters : AppliedFilters) (record : StringResource) : Bool :=
  (match filters.is_palindrome with
   | some b => record.properties.is_palindrome != b
   | none => false) ||
  (match filters.min_length with
   | some m => decide ((record.properties.length : Int) < m)
   | none => false) ||
  (match filters.max_length with
   | some m => decide ((record.properties.length : Int) > m)
   | none => false) ||
  (match filters.word_count with
   | some w => (record.properties.word_count : Int) != w
   | none => false) ||
  (match filters.contains_character with
   | some s => !(containsSub (pyLower record.value) (pyLower s))
   | none => false)

/-- `api._apply_filters`: keep, in order, every record no guard skips. -/
def _apply_filters (records : List StringResource) (filters : AppliedFilters) :
    List StringResource :=
  match records with
  | [] => []
  | record :: rest =>
    if skipRecord filters record then _apply_filters rest filters
    else record :: _apply_filters rest filters

/-- Specification-side satisfaction: the conjunction of each present
predicate's condition stated positively (inclusive bounds, equality,
case-insensitive containment). -/
def satisfiesSpec (filters : AppliedFilters) (r : StringResource) : Bool :=
  (match filters.is_palindrome with
   | some b => r.properties.is_palindrome == b
   | none => true) &&
  (match filters.min_length with
   | some m => decide (m ≤ (r.properties.length : Int))
   | none => true) &&
  (match filters.max_length with
   | some m => decide ((r.properties.length : Int) ≤ m)
   | none => true) &&
  (match filters.word_count with
   | some w => (r.properties.word_count : Int) == w
   | none => true) &&
  (match filters.contains_character with
   | some s => containsSub (pyLower r.value) (pyLower s)
   | none => true)

/-! ## Entry points -/

/-- `api._parsed_filters_or_none`: `model_dump(exclude_none=True)` is falsy
exactly when every field is `None`. -/
def _parsed_filters_or_none (filters : AppliedFilters) : Option AppliedFilters :=
  if filters = ⟨none, none, none, none, none⟩ then none else some filters

/-- `schema.StringsListResponse`. -/
structure StringsListResponse where
  data : List StringResource
  count : Nat
  filters_applied : Option AppliedFilters
deriving DecidableEq, Repr

/-- `schema.NaturalLanguageInterpretation`. -/
structure NaturalLanguageInterpretation where
  original : String
  parsed_filters : AppliedFilters
deriving DecidableEq, Repr

/-- `schema.NaturalLanguageFilterResponse`. -/
structure NaturalLanguageFilterResponse where
  data : List StringResource
  count : Nat
  interpreted_query : NaturalLanguageInterpretation
deriving DecidableEq, Repr

/-- The `Query(...)` constraints declared on `list_strings`' parameters
(`ge=0` on the three integer filters, `min_length=1, max_length=1` on
`contains_character`); FastAPI enforces them before the handler body. -/
def boundaryOk (minL maxL wc : Option Int) (cc : Option String) : Bool :=
  (match minL with | some v => decide (0 ≤ v) | none => true) &&
  (match maxL with | some v => decide (0 ≤ v) | none => true) &&
  (match wc with | some v => decide (0 ≤ v) | none => true) &&
  ccLenOk cc

/-- The successful body of `list_strings`: build filters, evaluate, package. -/
def listStringsBody (store : List StringResource) (ip : Option Bool)
    (minL maxL wc : Option Int) (cc : Option String) : StringsListResponse :=
  let filters : AppliedFilters := ⟨ip, minL, maxL, wc, cc⟩
  let filtered := _apply_filters store filters
  ⟨filtered, filtered.length, _parsed_filters_or_none filters⟩

/-- `api.list_strings`: framework parameter validation, the handler's
`min_length > max_length` check (HTTP 400), then evaluation.  (The
`AppliedFilters` construction cannot raise here: its only field constraint
is the `contains_character` length, already enforced at the boundary.) -/
def list_strings (store : List StringResource) (ip : Option Bool)
    (minL maxL wc : Option Int) (cc : Option String) :
    Except HttpError StringsListResponse :=
  if boundaryOk minL maxL wc cc then
    match minL, maxL with
    | some mn, some mx =>
        if mn > mx then .error invalidParams
        else .ok (listStringsBody store ip minL maxL wc cc)
    | some _, none => .ok (listStringsBody store ip minL maxL wc cc)
    | none, _ => .ok (listStringsBody store ip minL maxL wc cc)
  else .error requestValidationFailure

/-- `api.filter_by_natural_language`: parse, evaluate, package with the
interpretation echo. -/
def filter_by_natural_language (store : List StringResource) (query : String) :
    Except HttpError NaturalLanguageFilterResponse :=
  match _parse_natural_language_query query with
  | .error e => .error e
  | .ok filters =>
    let filtered := _apply_filters store filters
    .ok ⟨filtered, filtered.length, ⟨query, filters⟩⟩

/-! ## Per-rule field lemmas: what each rule does to its target field and
that it leaves every other field unchanged. -/

theorem applyRule1_pal (cs : List Char) (f : RawFilters) :
    (applyRule1 cs f).is_palindrome =
      if containsSub cs "palindrom".toList then some true else f.is_palindrome := by
  unfold applyRule1; split <;> simp_all

theorem applyRule1_wc (cs : List Char) (f : RawFilters) :
    (applyRule1 cs f).word_count = f.word_count := by
  unfold applyRule1; split <;> rfl

theorem applyRule1_min (cs : List Char) (f : RawFilters) :
    (applyRule1 cs f).min_length = f.min_length := by
  unfold applyRule1; split <;> rfl

theorem applyRule1_max (cs : List Char) (f : RawFilters) :
    (applyRule1 cs f).max_length = f.max_length := by
  unfold applyRule1; split <;> rfl

theorem applyRule1_cc (cs : List Char) (f : RawFilters) :
    (applyRule1 cs f).contains_character = f.contains_character := by
  unfold applyRule1; split <;> rfl

theorem applyRule2_wc (cs : List Char) (f : RawFilters) :
    (applyRule2 cs f).word_count =
      if containsSub cs "single word".toList || containsSub cs "one word".toList then
        some 1
      else f.word_count := by
  unfold applyRule2; split <;> simp_all

theorem applyRule2_pal (cs : List Char) (f : RawFilters) :
    (applyRule2 cs f).is_palindrome = f.is_palindrome := by
  unfold applyRule2; split <;> rfl

theorem applyRule2_min (cs : List Char) (f : RawFilters) :
    (applyRule2 cs f).min_length = f.min_length := by
  unfold applyRule2; split <;> rfl

theorem applyRule2_max (cs : List Char) (f : RawFilters) :
    (applyRule2 cs f).max_length = f.max_length := by
  unfold applyRule2; split <;> rfl

theorem applyRule2_cc (cs : List Char) (f : RawFilters) :
    (applyRule2 cs f).contains_character = f.contains_character := by
  unfold applyRule2; split <;> rfl

theorem applyRule3_min (cs : List Char) (f : RawFilters) :
    (applyRule3 cs f).min_length =
      match searchAux (numPatAt "longer than") cs with
      | some n => some ((n : Int) + 1)
      | none => f.min_length := by
  unfold applyRule3; cases h : searchAux (numPatAt "longer than") cs <;> simp [h]

theorem applyRule3_pal (cs : List Char) (f : RawFilters) :
    (applyRule3 cs f).is_palindrome = f.is_palindrome := by
  unfold applyRule3; split <;> rfl

theorem applyRule3_wc (cs : List Char) (f : RawFilters) :
    (applyRule3 cs f).word_count = f.word_count := by
  unfold applyRule3; split <;> rfl

theorem applyRule3_max (cs : List Char) (f : RawFilters) :
    (applyRule3 cs f).max_length = f.max_length := by
  unfold applyRule3; split <;> rfl

theorem applyRule3_cc (cs : List Char) (f : RawFilters) :
    (applyRule3 cs f).contains_character = f.contains_character := by
  unfold applyRule3; split <;> rfl

theorem applyRule4_min (cs : List Char) (f : RawFilters) :
    (applyRule4 cs f).min_length =
      match searchAux (numPatAt "at least") cs with
      | some n => some (max (n : Int) (f.min_length.getD 0))
      | none => f.min_length := by
  unfold applyRule4; cases h : searchAux (numPatAt "at least") cs <;> simp [h]

theorem applyRule4_pal (cs : List Char) (f : RawFilters) :
    (applyRule4 cs f).is_palindrome = f.is_palindrome := by
  unfold applyRule4; split <;> rfl

theorem applyRule4_wc (cs : List Char) (f : RawFilters) :
    (applyRule4 cs f).word_count = f.word_count := by
  unfold applyRule4; split <;> rfl

theorem applyRule4_max (cs : List Char) (f : RawFilters) :
    (applyRule4 cs f).max_length = f.max_length := by
  unfold applyRule4; split <;> rfl

theorem applyRule4_cc (cs : List Char) (f : RawFilters) :
    (applyRule4 cs f).contains_character = f.contains_character := by
  unfold applyRule4; split <;> rfl

theorem applyRule5_max (cs : List Char) (f : RawFilters) :
    (applyRule5 cs f).max_length =
      match searchAux (numPatAt "shorter than") cs with
      | some m => some ((m : Int) - 1)
      | none => f.max_length := by
  unfold applyRule5; cases h : searchAux (numPatAt "shorter than") cs <;> simp [h]

theorem applyRule5_pal (cs : List Char) (f : RawFilters) :
    (applyRule5 cs f).is_palindrome = f.is_palindrome := by
  unfold applyRule5; split <;> rfl

theorem applyRule5_wc (cs : List Char) (f : RawFilters) :
    (applyRule5 cs f).word_count = f.word_count := by
  unfold applyRule5; split <;> rfl

theorem applyRule5_min (cs : List Char) (f : RawFilters) :
    (applyRule5 cs f).min_length = f.min_length := by
  unfold applyRule5; split <;> rfl

theorem applyRule5_cc (cs : List Char) (f : RawFilters) :
    (applyRule5 cs f).contains_character = f.contains_character := by
  unfold applyRule5; split <;> rfl

theorem applyRule6_max (cs : List Char) (f : RawFilters) :
    (applyRule6 cs f).max_length =
      match searchAux atMostAt cs with
      | some n => some (min (n : Int) (f.max_length.getD (n : Int)))
      | none => f.max_length := by
  unfold applyRule6; cases h : searchAux atMostAt cs <;> simp [h]

theorem applyRule6_pal (cs : List Char) (f : RawFilters) :
    (applyRule6 cs f).is_palindrome = f.is_palindrome := by
  unfold applyRule6; split <;> rfl

theorem applyRule6_wc (cs : List Char) (f : RawFilters) :
    (applyRule6 cs f).word_count = f.word_count := by
  unfold applyRule6; split <;> rfl

theorem applyRule6_min (cs : List Char) (f : RawFilters) :
    (applyRule6 cs f).min_length = f.min_length := by
  unfold applyRule6; split <;> rfl

theorem applyRule6_cc (cs : List Char) (f : RawFilters) :
    (applyRule6 cs f).contains_character = f.contains_character := by
  unfold applyRule6; split <;> rfl

theorem applyRule7_cc (cs : List Char) (f : RawFilters) :
    (applyRule7 cs f).contains_character =
      match searchAux letterAt cs with
      | some c => some (String.mk [c])
      | none => f.contains_character := by
  unfold applyRule7; cases h : searchAux letterAt cs <;> simp [h]

theorem applyRule7_pal (cs : List Char) (f : RawFilters) :
    (applyRule7 cs f).is_palindrome = f.is_palindrome := by
  unfold applyRule7; split <;> rfl

theorem applyRule7_wc (cs : List Char) (f : RawFilters) :
    (applyRule7 cs f).word_count = f.word_count := by
  unfold applyRule7; split <;> rfl

theorem applyRule7_min (cs : List Char) (f : RawFilters) :
    (applyRule7 cs f).min_length = f.min_length := by
  unfold applyRule7; split <;> rfl

theorem applyRule7_max (cs : List Char) (f : RawFilters) :
    (applyRule7 cs f).max_length = f.max_length := by
  unfold applyRule7; split <;> rfl

theorem applyRule8_cc (cs : List Char) (f : RawFilters) :
    (applyRule8 cs f).contains_character =
      if containsSub cs "first vowel".toList then some "a"
      else f.contains_character := by
  unfold applyRule8; split <;> simp_all

theorem applyRule8_pal (cs : List Char) (f : RawFilters) :
    (applyRule8 cs f).is_palindrome = f.is_palindrome := by
  unfold applyRule8; split <;> rfl

theorem applyRule8_wc (cs : List Char) (f : RawFilters) :
    (applyRule8 cs f).word_count = f.word_count := by
  unfold applyRule8; split <;> rfl

theorem applyRule8_min (cs : List Char) (f : RawFilters) :
    (applyRule8 cs f).min_length = f.min_length := by
  unfold applyRule8; split <;> rfl

theorem applyRule8_max (cs : List Char) (f : RawFilters) :
    (applyRule8 cs f).max_length = f.max_length := by
  unfold applyRule8; split <;> rfl

theorem applyRule9_cc (cs : List Char) (f : RawFilters) :
    (applyRule9 cs f).contains_character =
      match searchAux containLetterAt cs with
      | some c => some (String.mk [c])
      | none => f.contains_character := by
  unfold applyRule9; cases h : searchAux containLetterAt cs <;> simp [h]

theorem applyRule9_pal (cs : List Char) (f : RawFilters) :
    (applyRule9 cs f).is_palindrome = f.is_palindrome := by
  unfold applyRule9; split <;> rfl

theorem applyRule9_wc (cs : List Char) (f : RawFilters) :
    (applyRule9 cs f).word_count = f.word_count := by
  unfold applyRule9; split <;> rfl

theorem applyRule9_min (cs : List Char) (f : RawFilters) :
    (applyRule9 cs f).min_length = f.min_length := by
  unfold applyRule9; split <;> rfl

theorem applyRule9_max (cs : List Char) (f : RawFilters) :
    (applyRule9 cs f).max_length = f.max_length := by
  unfold applyRule9; split <;> rfl

/-! ## Per-field characterization of the extraction result. -/

def palResult (cs : List Char) : Option Bool :=
  if containsSub cs "palindrom".toList then some true else none

def wcResult (cs : List Char) : Option Int :=
  if containsSub cs "single word".toList || containsSub cs "one word".toList then some 1
  else none

def ruleThreeMin (cs : List Char) : Option Int :=
  match searchAux (numPatAt "longer than") cs with
  | some n => some ((n : Int) + 1)
  | none => none

def ruleFourMin (cs : List Char) : Option Int :=
  match searchAux (numPatAt "at least") cs with
  | some n => some (max (n : Int) ((ruleThreeMin cs).getD 0))
  | none => ruleThreeMin cs

def ruleFiveMax (cs : List Char) : Option Int :=
  match searchAux (numPatAt "shorter than") cs with
  | some m => some ((m : Int) - 1)
  | none => none

def ruleSixMax (cs : List Char) : Option Int :=
  match searchAux atMostAt cs with
  | some n => some (min (n : Int) ((ruleFiveMax cs).getD (n : Int)))
  | none => ruleFiveMax cs

def ruleSevenCC (cs : List Char) : Option String :=
  match searchAux letterAt cs with
  | some c => some (String.mk [c])
  | none => none

def ruleEightCC (cs : List Char) : Option String :=
  if containsSub cs "first vowel".toList then some "a" else ruleSevenCC cs

def ruleNineCC (cs : List Char) : Option String :=
  match searchAux containLetterAt cs with
  | some c => some (String.mk [c])
  | none => ruleEightCC cs

theorem extractRaw_pal (cs : List Char) :
    (extractRaw cs).is_palindrome = palResult cs := by
  unfold extractRaw palResult
  simp only [applyRule9_pal, applyRule8_pal, applyRule7_pal, applyRule6_pal, applyRule5_pal,
    applyRule4_pal, applyRule3_pal, applyRule2_pal, applyRule1_pal]

theorem extractRaw_wc (cs : List Char) :
    (extractRaw cs).word_count = wcResult cs := by
  unfold extractRaw wcResult
  simp only [applyRule9_wc, applyRule8_wc, applyRule7_wc, applyRule6_wc, applyRule5_wc,
    applyRule4_wc, applyRule3_wc, applyRule2_wc, applyRule1_wc]

theorem extractRaw_min (cs : List Char) :
    (extractRaw cs).min_length = ruleFourMin cs := by
  unfold extractRaw ruleFourMin ruleThreeMin
  simp only [applyRule9_min, applyRule8_min, applyRule7_min, applyRule6_min, applyRule5_min,
    applyRule4_min, applyRule3_min, applyRule2_min, applyRule1_min]

theorem extractRaw_max (cs : List Char) :
    (extractRaw cs).max_length = ruleSixMax cs := by
  unfold extractRaw ruleSixMax ruleFiveMax
  simp only [applyRule9_max, applyRule8_max, applyRule7_max, applyRule6_max, applyRule5_max,
    applyRule4_max, applyRule3_max, applyRule2_max, applyRule1_max]

theorem extractRaw_cc (cs : List Char) :
    (extractRaw cs).contains_character = ruleNineCC cs := by
  unfold extractRaw ruleNineCC ruleEightCC ruleSevenCC
  simp only [applyRule9_cc, applyRule8_cc, applyRule7_cc, applyRule6_cc, applyRule5_cc,
    applyRule4_cc, applyRule3_cc, applyRule2_cc, applyRule1_cc]

/-! ## Emptiness of the raw map: exactly when no recognition rule fires. -/

def anyRuleFires (cs : List Char) : Bool :=
  containsSub cs "palindrom".toList ||
  (containsSub cs "single word".toList || containsSub cs "one word".toList) ||
  (searchAux (numPatAt "longer than") cs).isSome ||
  (searchAux (numPatAt "at least") cs).isSome ||
  (searchAux (numPatAt "shorter than") cs).isSome ||
  (searchAux atMostAt cs).isSome ||
  (searchAux letterAt cs).isSome ||
  containsSub cs "first vowel".toList ||
  (searchAux containLetterAt cs).isSome

theorem palResult_isNone (cs : List Char) :
    (palResult cs).isNone = !containsSub cs "palindrom".toList := by
  unfold palResult; cases containsSub cs "palindrom".toList <;> rfl

theorem wcResult_isNone (cs : List Char) :
    (wcResult cs).isNone =
      !(containsSub cs "single word".toList || containsSub cs "one word".toList) := by
  unfold wcResult
  cases (containsSub cs "single word".toList || containsSub cs "one word".toList) <;> rfl

theorem ruleFourMin_isNone (cs : List Char) :
    (ruleFourMin cs).isNone =
      (!(searchAux (numPatAt "at least") cs).isSome &&
       !(searchAux (numPatAt "longer than") cs).isSome) := by
  unfold ruleFourMin ruleThreeMin
  cases h1 : searchAux (numPatAt "at least") cs <;>
    cases h2 : searchAux (numPatAt "longer than") cs <;> simp [h1, h2]

theorem ruleSixMax_isNone (cs : List Char) :
    (ruleSixMax cs).isNone =
      (!(searchAux atMostAt cs).isSome &&
       !(searchAux (numPatAt "shorter than") cs).isSome) := by
  unfold ruleSixMax ruleFiveMax
  cases h1 : searchAux atMostAt cs <;>
    cases h2 : searchAux (numPatAt "shorter than") cs <;> simp [h1, h2]

theorem ruleNineCC_isNone (cs : List Char) :
    (ruleNineCC cs).isNone =
      (!(searchAux containLetterAt cs).isSome &&
       !containsSub cs "first vowel".toList &&
       !(searchAux letterAt cs).isSome) := by
  unfold ruleNineCC ruleEightCC ruleSevenCC
  cases h1 : searchAux containLetterAt cs <;>
    cases h2 : containsSub cs "first vowel".toList <;>
      cases h3 : searchAux letterAt cs <;> simp [h1, h2, h3]

theorem extractRaw_isEmpty (cs : List Char) :
    (extractRaw cs).isEmptyMap = !anyRuleFires cs := by
  unfold RawFilters.isEmptyMap anyRuleFires
  rw [extractRaw_pal, extractRaw_wc, extractRaw_min, extractRaw_max, extractRaw_cc,
    palResult_isNone, wcResult_isNone, ruleFourMin_isNone, ruleSixMax_isNone,
    ruleNineCC_isNone]
  generalize containsSub cs "palindrom".toList = b1
  generalize (containsSub cs "single word".toList || containsSub cs "one word".toList) = b2
  generalize (searchAux (numPatAt "longer than") cs).isSome = b3
  generalize (searchAux (numPatAt "at least") cs).isSome = b4
  generalize (searchAux (numPatAt "shorter than") cs).isSome = b5
  generalize (searchAux atMostAt cs).isSome = b6
  generalize (searchAux letterAt cs).isSome = b7
  generalize containsSub cs "first vowel".toList = b8
  generalize (searchAux containLetterAt cs).isSome = b9
  revert b1 b2 b3 b4 b5 b6 b7 b8 b9
  decide

/-! ## Evaluator bridge and assembly lemmas. -/

theorem decide_lt_eq (a b : Int) : decide (a < b) = !decide (b ≤ a) := by
  by_cases h : b ≤ a
  · simp [h, not_lt.mpr h]
  · simp [h, lt_of_not_le h]

theorem skipRecord_eq_not (f : AppliedFilters) (r : StringResource) :
    skipRecord f r = !satisfiesSpec f r := by
  obtain ⟨ip, mn, mx, wc, cc⟩ := f
  cases ip <;> cases mn <;> cases mx <;> cases wc <;> cases cc <;>
    simp [skipRecord, satisfiesSpec, decide_lt_eq, gt_iff_lt, Bool.not_and, bne]

theorem apply_filters_eq_filter (records : List StringResource) (f : AppliedFilters) :
    _apply_filters records f = records.filter (satisfiesSpec f) := by
  induction records with
  | nil => rfl
  | cons r rest ih =>
    unfold _apply_filters
    rw [skipRecord_eq_not, List.filter_cons]
    cases h : satisfiesSpec f r <;> simp [h, ih]

theorem ccLenOk_extract (cs : List Char) :
    ccLenOk (extractRaw cs).contains_character = true := by
  rw [extractRaw_cc]
  unfold ruleNineCC ruleEightCC ruleSevenCC
  cases h1 : searchAux containLetterAt cs <;>
    cases h2 : containsSub cs "first vowel".toList <;>
      cases h3 : searchAux letterAt cs <;> simp [h1, h2, h3, ccLenOk] <;> decide

theorem parseQuery_ok (q : String) (raw : RawFilters) (h : parseQuery q = .ok raw) :
    raw = extractRaw (normChars q) ∧ raw.isEmptyMap = false := by
  unfold parseQuery at h
  split at h
  · exact absurd h (by simp)
  · split at h
    · exact absurd h (by simp)
    · rename_i h2
      cases h
      exact ⟨rfl, by simpa using h2⟩

theorem assembleFilters_extract (q : String) (raw : RawFilters)
    (h : parseQuery q = .ok raw) :
    assembleFilters raw =
      .ok ⟨raw.is_palindrome, raw.min_length, raw.max_length,
           raw.word_count, raw.contains_character⟩ := by
  obtain ⟨hr, -⟩ := parseQuery_ok q raw h
  unfold assembleFilters
  rw [hr, ccLenOk_extract]
  simp

theorem parse_nl_ok_eq (q : String) (raw : RawFilters)
    (hq : parseQuery q = .ok raw) :
    _parse_natural_language_query q =
      conflictCheck ⟨raw.is_palindrome, raw.min_length, raw.max_length,
                     raw.word_count, raw.contains_character⟩ := by
  unfold _parse_natural_language_query
  split
  · rename_i e he
    rw [hq] at he
    exact absurd he (by simp)
  · rename_i raw' hraw'
    rw [hq] at hraw'
    injection hraw' with h2
    subst h2
    split
    · rename_i e he
      rw [assembleFilters_extract q raw hq] at he
      exact absurd he (by simp)
    · rename_i filters hfil
      rw [assembleFilters_extract q raw hq] at hfil
      injection hfil with h3
      subst h3
      rfl

theorem conflictCheck_some_some (f : AppliedFilters) (mn mx : Int)
    (h1 : f.min_length = some mn) (h2 : f.max_length = some mx) :
    conflictCheck f = if mn > mx then .error conflictFailure else .ok f := by
  unfold conflictCheck
  rw [h1, h2]

theorem conflictCheck_ok (f g : AppliedFilters) (h : conflictCheck f = .ok g) :
    g = f := by
  unfold conflictCheck at h
  split at h
  · split at h
    · exact absurd h (by simp)
    · injection h with h2; exact h2.symm
  · injection h with h2; exact h2.symm
  · injection h with h2; exact h2.symm

/-! ## Claim theorems. -/

/-- Claim C1 (counterexample): extraction of "longer than 3 characters, at least 5"
does not yield min_length = 5 — rule 4's pattern "at least N character(s)" requires
the word "character" after the number, and here it does not fire. -/
theorem c1_counterexample :
    (extractRaw (normChars "longer than 3 characters, at least 5")).min_length
      ≠ some 5 := by
  decide

/-- Claim C1 (amended): both phrase orders yield min_length = 4 — rule 3 fires with
N = 3 giving 4, while rule 4 does not fire at all — and the result is the same
regardless of the order the phrases appear in the text. -/
theorem c1_amended_precedence :
    (extractRaw (normChars "longer than 3 characters, at least 5")).min_length
        = some 4
    ∧ (extractRaw (normChars "at least 5, longer than 3 characters")).min_length
        = some 4
    ∧ _parse_natural_language_query "longer than 3 characters, at least 5"
        = .ok ⟨none, some 4, none, none, none⟩
    ∧ _parse_natural_language_query "at least 5, longer than 3 characters"
        = .ok ⟨none, some 4, none, none, none⟩ :=
  ⟨by decide, by decide, by decide, by decide⟩

/-- Claim C2 (counterexample): the filter set derived from the free text
"shorter than 0 characters" has the negative length predicate max_length = -1 and
assembles successfully — no ValidationError is raised on this entry point. -/
theorem c2_counterexample :
    _parse_natural_language_query "shorter than 0 characters"
      = .ok ⟨none, none, some (-1), none, none⟩ := by
  decide

/-- Claim C2 (amended): assembly itself performs no non-negativity validation on
length predicates — any raw map with a negative max_length assembles successfully,
and in particular "shorter than 0 characters" parses to max_length = -1; only the
structured entry point rejects negative length values, via the framework-enforced
query-parameter constraints, so the two entry points do not validate identically. -/
theorem c2_amended_validation :
    (∀ v : Int, assembleFilters ⟨none, none, none, some v, none⟩
        = .ok ⟨none, none, some v, none, none⟩)
    ∧ _parse_natural_language_query "shorter than 0 characters"
        = .ok ⟨none, none, some (-1), none, none⟩
    ∧ list_strings [] none none (some (-1)) none none
        = .error requestValidationFailure :=
  ⟨fun _ => rfl, by decide, by decide⟩

/-- Claim C3: a predicate set with both length bounds present and
min_length > max_length is rejected from either entry point: a structured request
whose parameters pass the declared per-field constraints fails with the handler's
400 rejection, and any free-text query whose extracted raw map carries such
bounds fails with the 422 conflict rejection. -/
theorem c3_conflict_both_entry_points :
    (∀ (store : List StringResource) (ip : Option Bool) (wc : Option Int)
        (cc : Option String) (mn mx : Int),
        mx < mn → boundaryOk (some mn) (some mx) wc cc = true →
        list_strings store ip (some mn) (some mx) wc cc = .error invalidParams)
    ∧ (∀ (q : String) (raw : RawFilters) (mn mx : Int),
        parseQuery q = .ok raw → raw.min_length = some mn →
        raw.max_length = some mx → mx < mn →
        _parse_natural_language_query q = .error conflictFailure) := by
  constructor
  · intro store ip wc cc mn mx h hbd
    unfold list_strings
    rw [hbd]
    simp [h]
  · intro q raw mn mx hq hmn hmx h
    rw [parse_nl_ok_eq q raw hq,
      conflictCheck_some_some _ mn mx hmn hmx, if_pos h]

/-- Claim C3 witness: the concrete conflicting bounds {min_length 5, max_length 3}
fail on the structured entry point, and a free-text query extracting
{min_length 10, max_length 2} fails on the natural-language entry point. -/
theorem c3_conflict_witness :
    list_strings [] none (some 5) (some 3) none none = .error invalidParams
    ∧ _parse_natural_language_query
        "longer than 9 characters shorter than 3 characters"
        = .error conflictFailure := by
  constructor
  · exact c3_conflict_both_entry_points.1 [] none none none 5 3 (by decide)
      (by decide)
  · exact c3_conflict_both_entry_points.2
      "longer than 9 characters shorter than 3 characters"
      ⟨none, none, some 10, some 2, none⟩ 10 2 (by decide) (by decide) (by decide)
      (by decide)

/-- Claim C4: evaluation returns exactly the records satisfying every present
predicate (a filter by the conjunctive satisfaction test), it preserves the
input's relative order (the output is a sublist of the input), and on records
civic, hello, racecar with filter is_palindrome = true it returns exactly
civic then racecar. -/
theorem c4_conjunctive_order_preserving (filters : AppliedFilters)
    (records : List StringResource) :
    _apply_filters records filters = records.filter (satisfiesSpec filters)
    ∧ List.Sublist (_apply_filters records filters) records
    ∧ _apply_filters
        [_build_resource "civic", _build_resource "hello", _build_resource "racecar"]
        ⟨some true, none, none, none, none⟩
        = [_build_resource "civic", _build_resource "racecar"] := by
  refine ⟨apply_filters_eq_filter records filters, ?_, by decide⟩
  rw [apply_filters_eq_filter]
  exact List.filter_sublist records

/-- Claim C5: the empty filter set is an identity: evaluating it returns the
input sequence unchanged. -/
theorem c5_empty_filter_identity (records : List StringResource) :
    _apply_filters records ⟨none, none, none, none, none⟩ = records := by
  induction records with
  | nil => rfl
  | cons r rest ih => simp [_apply_filters, skipRecord, ih]

/-- Claim C6: the contains_character predicate is a case-insensitive membership
test — filtering with character c keeps exactly the records whose lowercased
text contains the lowercased c — and in particular the filter "A" matches a
record with text "banana". -/
theorem c6_contains_character_case_insensitive (records : List StringResource)
    (c : Char) :
    _apply_filters records ⟨none, none, none, none, some (String.mk [c])⟩
        = records.filter (fun r => containsSub (pyLower r.value) [c.toLower])
    ∧ _apply_filters [_build_resource "banana"] ⟨none, none, none, none, some "A"⟩
        = [_build_resource "banana"] := by
  constructor
  · rw [apply_filters_eq_filter]
    apply List.filter_congr
    intro r _
    unfold satisfiesSpec pyLower
    simp
  · decide

/-- Claim C7: the extraction stage fails with the parse error exactly when the
normalized query is empty or none of the nine recognition rules fires; in every
other case it returns a raw predicate map with at least one field set; the
queries "" and "xyz" fail. -/
theorem c7_parse_error_iff (q : String) :
    (parseQuery q = .error parseFailure ↔
      (normChars q = [] ∨ anyRuleFires (normChars q) = false))
    ∧ (parseQuery q = .error parseFailure ∨
        ∃ raw, parseQuery q = .ok raw ∧ raw.isEmptyMap = false)
    ∧ parseQuery "" = .error parseFailure
    ∧ parseQuery "xyz" = .error parseFailure := by
  have hE := extractRaw_isEmpty (normChars q)
  refine ⟨?_, ?_, by decide, by decide⟩
  · unfold parseQuery
    by_cases h1 : (normChars q).isEmpty
    · rw [if_pos h1]
      simp [List.isEmpty_iff.mp h1]
    · rw [if_neg h1]
      have hne : ¬(normChars q = []) := fun hc => h1 (by simp [hc])
      cases h2 : anyRuleFires (normChars q)
      · have hE2 : (extractRaw (normChars q)).isEmptyMap = true := by
          rw [hE, h2]; rfl
        rw [if_pos hE2]
        simp [h2]
      · have hE2 : (extractRaw (normChars q)).isEmptyMap = false := by
          rw [hE, h2]; rfl
        rw [if_neg (by simp [hE2])]
        constructor
        · intro hc; exact absurd hc (by simp)
        · intro hc
          rcases hc with hc | hc
          · exact absurd hc hne
          · exact absurd hc (by simp)
  · unfold parseQuery
    by_cases h1 : (normChars q).isEmpty
    · rw [if_pos h1]; left; rfl
    · rw [if_neg h1]
      cases h2 : anyRuleFires (normChars q)
      · have hE2 : (extractRaw (normChars q)).isEmptyMap = true := by
          rw [hE, h2]; rfl
        rw [if_pos hE2]; left; rfl
      · have hE2 : (extractRaw (normChars q)).isEmptyMap = false := by
          rw [hE, h2]; rfl
        rw [if_neg (by simp [hE2])]
        right
        exact ⟨extractRaw (normChars q), rfl, hE2⟩

/-- Claim C7 witness: the unparseable query "xyz" fails with the parse error. -/
theorem c7_parse_error_witness : parseQuery "xyz" = .error parseFailure :=
  (c7_parse_error_iff "xyz").2.2.2

/-- Claim C8: when rule 6 ("at most N ..." / "no more than N ...") fires with
value N, the extracted max_length is min(N, current max if already set, else N):
min(N, M - 1) when rule 5 ("shorter than M ...") also fired, and exactly N
when it did not. -/
theorem c8_at_most_merge (cs : List Char) (n : Nat)
    (h : searchAux atMostAt cs = some n) :
    (extractRaw cs).max_length =
      some (min (n : Int)
        (match searchAux (numPatAt "shorter than") cs with
         | some m => (m : Int) - 1
         | none => (n : Int))) := by
  rw [extractRaw_max]
  unfold ruleSixMax ruleFiveMax
  rw [h]
  cases h5 : searchAux (numPatAt "shorter than") cs <;> simp [h5]

/-- Claim C8 witness: with "shorter than 10 characters at most 4 characters",
rule 6 fires with N = 4, rule 5 with M = 10, and the result is min(4, 9) = 4. -/
theorem c8_at_most_merge_witness :
    (extractRaw (normChars "shorter than 10 characters at most 4 characters")).max_length
      = some (min ((4 : Nat) : Int)
          (match searchAux (numPatAt "shorter than")
              (normChars "shorter than 10 characters at most 4 characters") with
           | some m => (m : Int) - 1
           | none => ((4 : Nat) : Int))) :=
  c8_at_most_merge _ 4 (by decide)

/-- Claim C9: no successfully parsed free-text query ever carries
is_palindrome = false — rule 1 can only set the field to true. -/
theorem c9_palindrome_never_false (q : String) (f : AppliedFilters)
    (h : _parse_natural_language_query q = .ok f) :
    f.is_palindrome ≠ some false := by
  cases hp : parseQuery q with
  | error e =>
    unfold _parse_natural_language_query at h
    rw [hp] at h
    exact absurd h (by simp)
  | ok raw =>
    rw [parse_nl_ok_eq q raw hp] at h
    have hf := conflictCheck_ok _ f h
    subst hf
    obtain ⟨hr, -⟩ := parseQuery_ok q raw hp
    show raw.is_palindrome ≠ some false
    rw [hr, extractRaw_pal]
    unfold palResult
    split <;> simp

/-- Claim C9 witness: the query "palindrome" parses to a filter set whose
is_palindrome field is some true, not some false. -/
theorem c9_palindrome_never_false_witness :
    (⟨some true, none, none, none, none⟩ : AppliedFilters).is_palindrome
      ≠ some false :=
  c9_palindrome_never_false "palindrome" ⟨some true, none, none, none, none⟩
    (by decide)

/-- Claim C10: every successful response from either entry point has
count equal to the number of records in data. -/
theorem c10_count_eq_length :
    (∀ (store : List StringResource) (ip : Option Bool) (minL maxL wc : Option Int)
        (cc : Option String) (resp : StringsListResponse),
        list_strings store ip minL maxL wc cc = .ok resp →
        resp.count = resp.data.length)
    ∧ (∀ (store : List StringResource) (q : String)
        (resp : NaturalLanguageFilterResponse),
        filter_by_natural_language store q = .ok resp →
        resp.count = resp.data.length) := by
  constructor
  · intro store ip minL maxL wc cc resp h
    unfold list_strings at h
    split at h
    · split at h
      · split at h
        · exact absurd h (by simp)
        · injection h with h2; subst h2; rfl
      · injection h with h2; subst h2; rfl
      · injection h with h2; subst h2; rfl
    · exact absurd h (by simp)
  · intro store q resp h
    unfold filter_by_natural_language at h
    split at h
    · exact absurd h (by simp)
    · injection h with h2; subst h2; rfl

/-- Claim C10 witness: concrete successful responses from both entry points
with count equal to the data length. -/
theorem c10_count_eq_length_witness :
    ((⟨[], 0, none⟩ : StringsListResponse).count
        = (⟨[], 0, none⟩ : StringsListResponse).data.length)
    ∧ ((⟨[], 0, ⟨"palindrome", ⟨some true, none, none, none, none⟩⟩⟩ :
          NaturalLanguageFilterResponse).count
        = (⟨[], 0, ⟨"palindrome", ⟨some true, none, none, none, none⟩⟩⟩ :
          NaturalLanguageFilterResponse).data.length) :=
  ⟨c10_count_eq_length.1 [] none none none none none ⟨[], 0, none⟩ (by decide),
   c10_count_eq_length.2 [] "palindrome"
     ⟨[], 0, ⟨"palindrome", ⟨some true, none, none, none, none⟩⟩⟩ (by decide)⟩

end StrEngine
